import Mathlib

/-!
Shallow embedding of the Scene / gameplay runtime of the Cell-Ops-Vaccination
repository (Gameplay::Scene, CPathAnimation, TargetBehaviour, EnemyBehaviour),
translated from the C++ sources.  Machine semantics notes:

* a `std::shared_ptr<GameObject>` is modelled by a `GameObject` value carrying
  its name, guid and position; distinct live pointers are modelled by distinct
  values (the scene's object vector only ever receives freshly created
  pointers, so pairwise-distinctness of the vector is stated as a hypothesis
  `Nodup` where a proof needs it);
* a `std::weak_ptr<GameObject>` entry of the deletion queue is modelled by
  `Option GameObject`, `none` standing for an expired or null weak pointer;
* the C++ `int` counters are modelled by `Int` (no overflow is relevant at the
  values the program manipulates);
* float timers and positions are modelled by `Rat` and `Int` triples; the
  claims settled here do not depend on floating-point rounding;
* calls into collaborator components (`EnemySpawnerBehaviour::SpawnWave`,
  `TargetBehaviour::Heal`, UI screens, per-object `Update`) are modelled as an
  emitted event trace, in source order.
-/

namespace CellOps

/-- A live game object: display name, persistent guid and (abstracted)
position, mirroring the fields of `Gameplay::GameObject` used by `Scene`. -/
structure GameObject where
  name : String
  guid : Nat
  pos  : Int × Int × Int
deriving DecidableEq, Repr, Inhabited

/-- A scene light, mirroring `Gameplay::Light` (Position, Color, Range); the
shader-side attenuation `1/(1+Range)` is an injective image of `Range` and is
represented by storing the light itself in the mirror buffer. -/
structure Light where
  Position : Int × Int × Int
  Color : Int × Int × Int
  Range : Int
deriving DecidableEq, Repr, Inhabited

/-- Observable side effects emitted by the scene logic, in source order:
per-object `Update` calls, `TargetBehaviour::Heal`, spawner requests
(`SpawnWave(a,b,c)` and `IncreaseEnemySpeed`), `TargetController::Spawntargets`
and the `UiController` screen calls. -/
inductive Ev where
  | objUpdate (o : GameObject)
  | heal (o : GameObject)
  | spawnWave (c : Nat × Nat × Nat)
  | speedUp
  | spawnTargets
  | uiUpdate
  | uiTitle
  | uiWin
  | uiOver
  | uiPauseScreen
  | uiGameScreen
deriving DecidableEq, Repr

/-- State of `Gameplay::Scene`: the live object vector `_objects`, the
deferred-deletion queue `_deletionQueue`, the light list, the gameplay lists
`Enemies` / `Targets`, counters and play-state flags, plus the lighting UBO
mirror (`_lightingUbo`: a buffer of `MAX_LIGHTS` light slots and the active
light count).  `MAX_LIGHTS` is a class constant whose numeric value lives in
`Scene.h`; it is kept abstract here as a field. -/
structure Scene where
  objects : List GameObject
  deletionQueue : List (Option GameObject)
  Lights : List Light
  Enemies : List GameObject
  Targets : List GameObject
  EnemiesKilled : Int
  GameRound : Int
  IsPlaying : Bool
  IsPaused : Bool
  IsPauseUIUp : Bool
  IsGameEnd : Bool
  IsGameWon : Bool
  IsTitleUp : Bool
  GameStarted : Bool
  IsCheatActivated : Bool
  MAX_LIGHTS : Nat
  uboLights : List Light
  uboNumLights : Int
deriving DecidableEq, Repr

/-- `Scene::RemoveGameObject`: push a weak reference onto the deletion queue;
the live set is not touched. -/
def Scene.RemoveGameObject (s : Scene) (object : Option GameObject) : Scene :=
  { s with deletionQueue := s.deletionQueue ++ [object] }

/-- `Scene::FindObjectByName`: first live object with the given name. -/
def Scene.FindObjectByName (s : Scene) (name : String) : Option GameObject :=
  s.objects.find? (fun obj => obj.name == name)

/-- `Scene::FindObjectByGUID`: first live object with the given guid. -/
def Scene.FindObjectByGUID (s : Scene) (id : Nat) : Option GameObject :=
  s.objects.find? (fun obj => obj.guid == id)

/-- One step of the flush loop body: an expired or null weak pointer is
skipped, otherwise the first matching live entry is erased. -/
def flushStep (objs : List GameObject) (w : Option GameObject) : List GameObject :=
  match w with
  | none => objs
  | some o => objs.erase o

/-- `Scene::_FlushDeleteQueue`: erase every still-valid queued object from the
live vector, then clear the queue. -/
def Scene.FlushDeleteQueue (s : Scene) : Scene :=
  { s with
    objects := s.deletionQueue.foldl flushStep s.objects
    deletionQueue := [] }

/-- `Scene::FindTarget`: with a non-empty target list, return a random target
(the random draw `rand()` is passed in as `randVal`); with an empty target
list, queue the player object for deletion, raise the game-end flag, and
return null. -/
def Scene.FindTarget (s : Scene) (randVal : Nat) : Option GameObject × Scene :=
  if h : s.Targets.length ≠ 0 then
    (some (s.Targets.get ⟨randVal % s.Targets.length,
      Nat.mod_lt _ (Nat.pos_of_ne_zero h)⟩), s)
  else
    (none, { s.RemoveGameObject (s.FindObjectByName "Player") with IsGameEnd := true })

/-- `Scene::DeleteEnemy`: erase the object from `Enemies` if present; the kill
counter `EnemiesKilled` is incremented unconditionally, after the conditional
erase. -/
def Scene.DeleteEnemy (s : Scene) (object : GameObject) : Scene :=
  let s :=
    if object ∈ s.Enemies then { s with Enemies := s.Enemies.erase object } else s
  { s with EnemiesKilled := s.EnemiesKilled + 1 }

/-- `EnemyBehaviour::TakeDamage` (death path): decrement health; on death,
increment the scene kill counter, then call `Scene::DeleteEnemy`, then queue
the enemy object for deletion.  Returns the updated scene and health. -/
def TakeDamage (s : Scene) (self : GameObject) (health : Int) : Scene × Int :=
  let health' := health - 1
  if health' ≤ 0 then
    let s1 := { s with EnemiesKilled := s.EnemiesKilled + 1 }
    let s2 := s1.DeleteEnemy self
    let s3 := s2.RemoveGameObject (some self)
    (s3, health')
  else (s, health')

/-- Wave composition table extracted from the branches of `Scene::LevellCheck`:
the `(slow, normal, fast)` counts passed to `SpawnWave` for a given kill-count
threshold, as a function of the round counter value after its increment. -/
def waveComposition (kills newRound : Int) : Nat × Nat × Nat :=
  if kills = 8 then
    if newRound = 5 then (0, 6, 6) else if newRound > 2 then (0, 4, 4) else (0, 0, 8)
  else if kills = 12 then
    if newRound > 6 then (0, 8, 8) else (0, 6, 6)
  else if kills = 16 then (4, 6, 10)
  else
    if newRound = 10 then (6, 8, 12) else (6, 4, 10)

/-- `Scene::LevellCheck`: when no enemies remain and at least one kill is
recorded, switch on the kill counter (round thresholds 8, 12, 16, 20, the win
value 26, or nothing), each threshold healing every target, incrementing the
round, requesting one wave and resetting the counter, and the cheat flag is
cleared after the switch; otherwise a kill counter above 26 raises the
win/end flags. -/
def Scene.LevellCheck (s : Scene) : Scene × List Ev :=
  if s.Enemies.length = 0 ∧ s.EnemiesKilled > 0 then
    let (s', evs) :=
      if s.EnemiesKilled = 8 then
        let r := s.GameRound + 1
        let spawn :=
          if r = 5 then [Ev.speedUp, Ev.spawnWave (0, 6, 6)]
          else if r > 2 then [Ev.speedUp, Ev.spawnWave (0, 4, 4)]
          else [Ev.speedUp, Ev.spawnWave (0, 0, 8)]
        ({ s with GameRound := r, EnemiesKilled := 0 }, s.Targets.map Ev.heal ++ spawn)
      else if s.EnemiesKilled = 12 then
        let r := s.GameRound + 1
        let spawn :=
          if r > 6 then [Ev.speedUp, Ev.spawnWave (0, 8, 8)]
          else [Ev.speedUp, Ev.spawnWave (0, 6, 6)]
        ({ s with GameRound := r, EnemiesKilled := 0 }, s.Targets.map Ev.heal ++ spawn)
      else if s.EnemiesKilled = 16 then
        let r := s.GameRound + 1
        ({ s with GameRound := r, EnemiesKilled := 0 },
          s.Targets.map Ev.heal ++ [Ev.speedUp, Ev.spawnWave (4, 6, 10)])
      else if s.EnemiesKilled = 20 then
        let r := s.GameRound + 1
        let spawn :=
          if r = 10 then [Ev.speedUp, Ev.spawnWave (6, 8, 12)]
          else [Ev.speedUp, Ev.spawnWave (6, 4, 10)]
        ({ s with GameRound := r, EnemiesKilled := 0 }, s.Targets.map Ev.heal ++ spawn)
      else if s.EnemiesKilled = 26 then
        ({ s with IsGameWon := true, IsGameEnd := true }, [])
      else (s, [])
    ({ s' with IsCheatActivated := false }, evs)
  else if s.EnemiesKilled > 26 then
    ({ s with IsGameWon := true, IsGameEnd := true }, [])
  else (s, [])

/-- The resize idiom of `std::vector::resize(n)`: truncate or pad with
default-constructed elements to length exactly `n`. -/
def listResize (l : List α) (n : Nat) (d : α) : List α :=
  l.take n ++ List.replicate (n - l.length) d

/-- `Scene::SetShaderLight` (update flag elided): copy light `index` of the
light list into slot `index` of the UBO mirror, but only when `index` is in
range of both the light list and the `MAX_LIGHTS`-sized mirror buffer; the
C++ `int` index is non-negative at every call site and is modelled by `Nat`. -/
def Scene.SetShaderLight (s : Scene) (index : Nat) : Scene :=
  if index < s.Lights.length ∧ index < s.MAX_LIGHTS then
    { s with uboLights := s.uboLights.set index (s.Lights.getD index default) }
  else s

/-- `Scene::SetupShaderAndLights`: publish the light count and copy every
light-list index through `SetShaderLight`. -/
def Scene.SetupShaderAndLights (s : Scene) : Scene :=
  let s := { s with uboNumLights := (s.Lights.length : Int) }
  (List.range s.Lights.length).foldl Scene.SetShaderLight s

/-- The debug-UI light-adding branch of the main loop (`main.cpp`): a new
default light is appended only while the list is below `MAX_LIGHTS`. -/
def Scene.addLightUI (s : Scene) : Scene :=
  if s.Lights.length < s.MAX_LIGHTS then
    Scene.SetupShaderAndLights { s with Lights := s.Lights ++ [default] }
  else s

/-- `Scene::GameStart`: set the round to 1; `TargetController::Spawntargets`
creates one object per configured target name at a `rand()`-driven position —
its output is passed in as `spawned`, each object being registered in the live
set and the target list; the light list is then resized to the target count
and filled from the target positions, lights are baked, the first wave
`SpawnWave(0,0,8)` is requested, the game screen replaces the title and the
started flag is raised. -/
def Scene.GameStart (s : Scene) (spawned : List GameObject) : Scene × List Ev :=
  let s := { s with GameRound := 1 }
  let s := { s with objects := s.objects ++ spawned, Targets := s.Targets ++ spawned }
  let lights0 := listResize s.Lights s.Targets.length default
  let lights := (s.Targets.foldl
    (fun (p : List Light × Nat) t =>
      (p.1.set p.2 { Position := t.pos, Color := (1, 1, 1), Range := 100 }, p.2 + 1))
    (lights0, 0)).1
  let s := Scene.SetupShaderAndLights { s with Lights := lights }
  ({ s with IsTitleUp := false, GameStarted := true },
    [Ev.spawnTargets, Ev.spawnWave (0, 0, 8), Ev.uiGameScreen])

/-- `Scene::GamePause(bool)`: with a true argument and no pause UI up, show
the pause screen; otherwise queue the pause screen object for deletion and
lower the pause-UI flag. -/
def Scene.GamePause (s : Scene) (isPausedArg : Bool) : Scene × List Ev :=
  if isPausedArg ∧ ¬s.IsPauseUIUp then
    ({ s with IsPauseUIUp := true }, [Ev.uiPauseScreen])
  else
    ({ s.RemoveGameObject (s.FindObjectByName "Game Pause") with IsPauseUIUp := false }, [])

/-- Edge-triggered input signals consumed by `Scene::Update` in one frame. -/
structure Input where
  f2Pressed : Bool
  escPressed : Bool
  enterDown : Bool
deriving DecidableEq, Repr

/-- `Scene::Update`: the per-frame game loop.  While the game has not ended:
cheat key (only while paused, once), pause toggle, start input (invoking
`GameStart`, whose `rand()`-driven spawned targets are the `spawned`
argument), a deletion-queue flush, then either the per-object update pass with
UI refresh and `LevellCheck` (playing and not paused), the paused no-op, or
the title screen, and a second flush.  Once `IsGameEnd` is set, only the end
screens run. -/
def Scene.Update (s : Scene) (inp : Input) (spawned : List GameObject) :
    Scene × List Ev :=
  if ¬s.IsGameEnd then
    let s :=
      if inp.f2Pressed ∧ s.IsPaused then
        if ¬s.IsCheatActivated then
          { s with EnemiesKilled := 100, IsCheatActivated := true }
        else s
      else s
    let (s, ev1) :=
      if inp.escPressed then
        if s.IsPaused ∧ s.IsPauseUIUp then
          Scene.GamePause { s with IsPaused := false } false
        else
          Scene.GamePause { s with IsPaused := true } true
      else (s, [])
    let (s, ev2) :=
      if inp.enterDown ∧ ¬s.IsPlaying ∧ ¬s.GameStarted then
        Scene.GameStart { s with IsPlaying := true, GameStarted := true } spawned
      else (s, [])
    let s := s.FlushDeleteQueue
    let (s, ev3) :=
      if s.IsPlaying then
        if ¬s.IsPaused then
          let updates := s.objects.map Ev.objUpdate
          if s.GameStarted then
            let (s', evL) := s.LevellCheck
            (s', updates ++ [Ev.uiUpdate] ++ evL)
          else (s, updates)
        else (s, [])
      else
        if ¬s.GameStarted ∧ ¬s.IsTitleUp then
          ({ s with IsTitleUp := true }, [Ev.uiTitle])
        else (s, [])
    let s := s.FlushDeleteQueue
    (s, ev1 ++ ev2 ++ ev3)
  else
    if s.IsGameWon then (s, if ¬s.IsTitleUp then [Ev.uiWin] else [])
    else (s, if ¬s.IsTitleUp then [Ev.uiOver] else [])

/-- Iterated frames: run `Scene::Update` over a list of per-frame inputs
(each frame carrying its input signals and the `rand()`-driven spawn outcome),
concatenating the emitted events. -/
def Scene.UpdateRun (s : Scene) : List (Input × List GameObject) → Scene × List Ev
  | [] => (s, [])
  | (inp, spawned) :: rest =>
    let (s', evs) := s.Update inp spawned
    let (s'', evs') := s'.UpdateRun rest
    (s'', evs ++ evs')

/-- True when the event trace contains no per-object `Update` call. -/
def noObjUpdate (evs : List Ev) : Bool :=
  evs.all (fun e => match e with | Ev.objUpdate _ => false | _ => true)

/-- Events of the per-frame physics pass, in source order. -/
inductive PhysEvent where
  | preStep (id : Nat)
  | stepSimulation
  | postStep (id : Nat)
deriving DecidableEq, Repr

/-- `Scene::DoPhysics`: `PhysicsPreStep` over every rigid body then every
trigger volume; then, only while playing, the world step followed by
`PhysicsPostStep` over every rigid body then every trigger volume.  The
registered components are passed as id lists. -/
def DoPhysics (isPlaying : Bool) (rigidBodies triggerVolumes : List Nat) :
    List PhysEvent :=
  rigidBodies.map PhysEvent.preStep ++ triggerVolumes.map PhysEvent.preStep ++
    (if isPlaying then
      PhysEvent.stepSimulation ::
        (rigidBodies.map PhysEvent.postStep ++ triggerVolumes.map PhysEvent.postStep)
    else [])

/-- Structured document values (the `nlohmann::json` subset the scene and
component serializers exchange). -/
inductive Json where
  | null
  | num (n : Int)
  | str (s : String)
  | arr (items : List Json)
  | obj (fields : List (String × Json))
deriving Repr, Inhabited

/-- Field lookup on an object document; `none` for a missing key or a
non-object, standing for the C++ failure of reading an absent key. -/
def Json.getField : Json → String → Option Json
  | .obj fields, key => fields.lookup key
  | _, _ => none

/-- Numeric payload of a document value. -/
def Json.getInt : Json → Option Int
  | .num n => some n
  | _ => none

/-- The `is_array` test of a document value. -/
def Json.isArr : Json → Bool
  | .arr _ => true
  | _ => false

/-- Elements of an array document value. -/
def Json.elems : Json → List Json
  | .arr items => items
  | _ => []

/-- `TargetBehaviour` component state: current health and maximum health (the
C++ floats carry the integral values the game uses). -/
structure TargetBehaviour where
  health : Int
  MaxHealth : Int
deriving DecidableEq, Repr

/-- `TargetBehaviour::ToJson`: writes the keys `health` (lower case) and
`MaxHealth`. -/
def TargetBehaviour.ToJson (tb : TargetBehaviour) : Json :=
  .obj [("health", .num tb.health), ("MaxHealth", .num tb.MaxHealth)]

/-- `TargetBehaviour::FromJson`: reads `blob["Health"]` (capital H) and
`blob["MaxHealth"]`; a missing key cannot produce the stored value and is
modelled as a failed load (`none`). -/
def TargetBehaviour.FromJson (blob : Json) : Option TargetBehaviour := do
  let h ← (blob.getField "Health").bind Json.getInt
  let m ← (blob.getField "MaxHealth").bind Json.getInt
  pure { health := h, MaxHealth := m }

/-- Scene-load failures at the structural asserts of `Scene::FromJson`. -/
inductive SceneLoadError where
  | objectsMissing
  | lightsMissing
deriving DecidableEq, Repr

/-- The scene graph produced by a successful document load. -/
structure LoadedScene where
  objects : List GameObject
  lights : List Light
deriving DecidableEq, Repr

/-- Modelled from the spec: `GameObject::FromJson` is not among the provided
sources; per the spec's entity document (`name`, `guid`, `transform`,
`parent_guid`, `components`) it reconstructs an entity from its document. -/
def GameObject.FromJson (j : Json) : GameObject :=
  { name :=
      match j.getField "name" with
      | some (.str s) => s
      | _ => ""
    guid := (((j.getField "guid").bind Json.getInt).getD 0).toNat
    pos := (0, 0, 0) }

/-- Modelled from the spec: `Light::FromJson` is not among the provided
sources; per the spec's light data (position, color, range) it reconstructs a
light from its document. -/
def Light.FromJson (j : Json) : Light :=
  { Position := (0, 0, 0)
    Color := (0, 0, 0)
    Range := ((j.getField "range").bind Json.getInt).getD 0 }

/-- `Scene::FromJson`: builds a fresh scene from the document.  The structural
`LOG_ASSERT(data["objects"].is_array())` and
`LOG_ASSERT(data["lights"].is_array())` guards are modelled from the spec
(`Logger` is not among the provided sources) as fatal `SceneLoadError`s:
objects are checked and loaded first, lights after. -/
def Scene.FromJson (data : Json) : Except SceneLoadError LoadedScene :=
  let objsJ := (data.getField "objects").getD .null
  if objsJ.isArr then
    let objs := objsJ.elems.map GameObject.FromJson
    let lightsJ := (data.getField "lights").getD .null
    if lightsJ.isArr then
      .ok { objects := objs, lights := lightsJ.elems.map Light.FromJson }
    else .error .lightsMissing
  else .error .objectsMissing

/-- True when the load failed with an error. -/
def loadFails (r : Except SceneLoadError LoadedScene) : Bool :=
  match r with
  | .error _ => true
  | .ok _ => false

/-- The load operation as seen from a caller holding a live scene:
`Scene::FromJson` constructs a fresh scene object and never touches the
previously live one, which is returned alongside unchanged. -/
def Scene.LoadFrom (prior : Scene) (data : Json) :
    Except SceneLoadError LoadedScene × Scene :=
  (Scene.FromJson data, prior)

/-- State of `CPathAnimation`: the segment timer and the two keypoint indices
(`size_t`); the constructor sets timer 0, first index 0 and second index 1. -/
structure CPathAnimation where
  segmentTimer : Rat
  segmentIndex : Nat
  segmentIndex2 : Nat
deriving DecidableEq, Repr

/-- The `CPathAnimation` constructor state. -/
def CPathAnimation.init : CPathAnimation :=
  { segmentTimer := 0, segmentIndex := 0, segmentIndex2 := 1 }

/-- `CPathAnimation::Update` over a keypoint set of size `numKeypoints`:
advance the timer; at one second, reset it and advance both indices with the
wrap checks; then, whenever the keypoint set is non-empty, interpolate the
owner position from `keypoints[m_segmentIndex]` and
`keypoints[m_segmentIndex2]`.  The second component collects the keypoint
indices read by the interpolation (each is read three times, once per
coordinate; one entry per index stands for the three). -/
def CPathAnimation.Update (a : CPathAnimation) (numKeypoints : Nat)
    (deltaTime : Rat) : CPathAnimation × List Nat :=
  let timer := a.segmentTimer + deltaTime
  let a :=
    if 1 ≤ timer then
      let i1 := a.segmentIndex + 1
      let i1 := if numKeypoints ≤ i1 then 0 else i1
      let i2 := i1 + 1
      let i2 := if numKeypoints ≤ i2 then 0 else i2
      { segmentTimer := 0, segmentIndex := i1, segmentIndex2 := i2 }
    else { a with segmentTimer := timer }
  if 0 < numKeypoints then (a, [a.segmentIndex, a.segmentIndex2])
  else (a, [])

/-- Iterated `CPathAnimation::Update` calls over a fixed keypoint set,
collecting every keypoint index read. -/
def CPathAnimation.UpdateRun (a : CPathAnimation) (numKeypoints : Nat) :
    List Rat → CPathAnimation × List Nat
  | [] => (a, [])
  | dt :: rest =>
    let (a', reads) := a.Update numKeypoints dt
    let (a'', reads') := a'.UpdateRun numKeypoints rest
    (a'', reads ++ reads')

/-- True when every read index is strictly below the keypoint count. -/
def allBelow (reads : List Nat) (n : Nat) : Bool :=
  reads.all (fun r => decide (r < n))

/-- A sample live object (the player). -/
def sampleObjA : GameObject := { name := "Player", guid := 1, pos := (0, 0, 0) }

/-- A second sample live object. -/
def sampleObjB : GameObject := { name := "Red Blood Cell", guid := 2, pos := (1, 2, 3) }

/-- A small concrete scene used to instantiate theorems on concrete inputs. -/
def sampleScene : Scene :=
  { objects := [sampleObjA, sampleObjB]
    deletionQueue := []
    Lights := []
    Enemies := []
    Targets := []
    EnemiesKilled := 0
    GameRound := 0
    IsPlaying := false
    IsPaused := false
    IsPauseUIUp := false
    IsGameEnd := false
    IsGameWon := false
    IsTitleUp := false
    GameStarted := false
    IsCheatActivated := false
    MAX_LIGHTS := 8
    uboLights := List.replicate 8 default
    uboNumLights := 0 }

/-- A concrete scene with 27 recorded kills and no live enemies. -/
def sceneKills27 : Scene := { sampleScene with EnemiesKilled := 27 }

/-- A concrete scene at the first round threshold while an enemy is alive. -/
def sceneKills8Busy : Scene :=
  { sampleScene with
    EnemiesKilled := 8
    Enemies := [sampleObjB]
    Targets := [sampleObjA]
    GameRound := 1 }

/-- A concrete scene at the first round threshold with the wave cleared. -/
def sceneKills8Clear : Scene :=
  { sampleScene with EnemiesKilled := 8, Targets := [sampleObjA], GameRound := 1 }

/-- A concrete scene with 27 kills and one live enemy. -/
def sceneKills27Busy : Scene :=
  { sampleScene with EnemiesKilled := 27, Enemies := [sampleObjB] }

/-- Nine spawned target objects, one more than the sample light cap. -/
def nineTargets : List GameObject :=
  (List.range 9).map (fun i => { name := "Cell", guid := i + 10, pos := (0, 0, 0) })

end CellOps

namespace CellOps

lemma flush_count_le (q : List (Option GameObject)) (objs : List GameObject)
    (e : GameObject) : (q.foldl flushStep objs).count e ≤ objs.count e := by
  induction q generalizing objs with
  | nil => exact Nat.le_refl _
  | cons w q ih =>
    refine Nat.le_trans (ih (flushStep objs w)) ?_
    cases w with
    | none => exact Nat.le_refl _
    | some o =>
      simp only [flushStep]
      rw [List.count_erase]
      omega

/-- C1: requesting destruction of a live object does not remove it at once;
after one flush it is gone from the live set, no longer produced by the name
or guid queries, and the pending queue is empty. -/
theorem c1_requestDestroy_then_flush (s : Scene) (e : GameObject)
    (he : e ∈ s.objects) (hnd : s.objects.Nodup) :
    e ∈ (s.RemoveGameObject (some e)).objects ∧
    e ∉ ((s.RemoveGameObject (some e)).FlushDeleteQueue).objects ∧
    ((s.RemoveGameObject (some e)).FlushDeleteQueue).FindObjectByName e.name ≠ some e ∧
    ((s.RemoveGameObject (some e)).FlushDeleteQueue).FindObjectByGUID e.guid ≠ some e ∧
    ((s.RemoveGameObject (some e)).FlushDeleteQueue).deletionQueue = [] := by
  have hcount : s.objects.count e ≤ 1 := List.nodup_iff_count_le_one.mp hnd e
  have hobjs : ((s.RemoveGameObject (some e)).FlushDeleteQueue).objects =
      (s.deletionQueue.foldl flushStep s.objects).erase e := by
    simp [Scene.RemoveGameObject, Scene.FlushDeleteQueue, List.foldl_append, flushStep]
  have hmem : e ∉ ((s.RemoveGameObject (some e)).FlushDeleteQueue).objects := by
    rw [hobjs]
    intro hmem
    have h1 : 0 < ((s.deletionQueue.foldl flushStep s.objects).erase e).count e :=
      List.count_pos_iff.mpr hmem
    have h2 := flush_count_le s.deletionQueue s.objects e
    rw [List.count_erase_self] at h1
    omega
  refine ⟨?_, hmem, ?_, ?_, rfl⟩
  · simpa [Scene.RemoveGameObject] using he
  · intro hfind
    exact hmem (List.mem_of_find?_eq_some hfind)
  · intro hfind
    exact hmem (List.mem_of_find?_eq_some hfind)

/-- C1 witness: the theorem instantiated on a concrete two-object scene. -/
theorem c1_witness :
    (sampleObjB ∈ sampleScene.objects ∧ sampleScene.objects.Nodup) ∧
    (sampleObjB ∈ (sampleScene.RemoveGameObject (some sampleObjB)).objects ∧
      sampleObjB ∉ ((sampleScene.RemoveGameObject (some sampleObjB)).FlushDeleteQueue).objects ∧
      ((sampleScene.RemoveGameObject (some sampleObjB)).FlushDeleteQueue).FindObjectByName
          sampleObjB.name ≠ some sampleObjB ∧
      ((sampleScene.RemoveGameObject (some sampleObjB)).FlushDeleteQueue).FindObjectByGUID
          sampleObjB.guid ≠ some sampleObjB ∧
      ((sampleScene.RemoveGameObject (some sampleObjB)).FlushDeleteQueue).deletionQueue = []) :=
  ⟨⟨by decide, by decide⟩,
    c1_requestDestroy_then_flush sampleScene sampleObjB (by decide) (by decide)⟩

/-- C9: `DeleteEnemy` always increments the kill counter by one, even for an
object absent from the enemy list, and the death path of
`EnemyBehaviour::TakeDamage` therefore raises the counter by two. -/
theorem c9_deleteEnemy_unconditional_increment (s : Scene) (o : GameObject)
    (health : Int) :
    (s.DeleteEnemy o).EnemiesKilled = s.EnemiesKilled + 1 ∧
    (o ∉ s.Enemies → (s.DeleteEnemy o).Enemies = s.Enemies) ∧
    (health - 1 ≤ 0 →
      (TakeDamage s o health).1.EnemiesKilled = s.EnemiesKilled + 2) := by
  refine ⟨?_, ?_, ?_⟩
  · simp only [Scene.DeleteEnemy]
    split <;> rfl
  · intro hmem
    simp [Scene.DeleteEnemy, hmem]
  · intro hdead
    simp only [TakeDamage, Scene.DeleteEnemy, Scene.RemoveGameObject, if_pos hdead]
    split <;> simp <;> ring

/-- C9 witness: the theorem instantiated on a concrete scene and an object
absent from the enemy list, with health 1 so the death path fires. -/
theorem c9_witness :
    (sampleScene.DeleteEnemy sampleObjA).EnemiesKilled = sampleScene.EnemiesKilled + 1 ∧
    (sampleObjA ∉ sampleScene.Enemies →
      (sampleScene.DeleteEnemy sampleObjA).Enemies = sampleScene.Enemies) ∧
    ((1 : Int) - 1 ≤ 0 →
      (TakeDamage sampleScene sampleObjA 1).1.EnemiesKilled =
        sampleScene.EnemiesKilled + 2) :=
  c9_deleteEnemy_unconditional_increment sampleScene sampleObjA 1

/-- C6: `FindTarget` on an empty target list returns null instead of failing,
raises the game-end flag and leaves the win flag untouched (so the state is
the lost ending whenever the win flag was down). -/
theorem c6_findTarget_empty (s : Scene) (randVal : Nat) (h : s.Targets = []) :
    (s.FindTarget randVal).1 = none ∧
    (s.FindTarget randVal).2.IsGameEnd = true ∧
    (s.FindTarget randVal).2.IsGameWon = s.IsGameWon := by
  simp [Scene.FindTarget, h, Scene.RemoveGameObject]

/-- C6 witness: the theorem instantiated on a concrete target-less scene. -/
theorem c6_witness :
    sampleScene.Targets = [] ∧
    ((sampleScene.FindTarget 3).1 = none ∧
      (sampleScene.FindTarget 3).2.IsGameEnd = true ∧
      (sampleScene.FindTarget 3).2.IsGameWon = sampleScene.IsGameWon) :=
  ⟨by decide, c6_findTarget_empty sampleScene 3 (by decide)⟩

/-- C2 counterexample: outside the Playing state (here: not playing, one
rigid body) the physics pass emits no `PhysicsPostStep` call, refuting that
post-step synchronization runs in every play-state. -/
theorem c2_counterexample :
    PhysEvent.postStep 0 ∉ DoPhysics false [0] [] := by decide

/-- C2 amended: `PhysicsPreStep` runs for every rigid body and trigger volume
in every play-state, while both the world step and `PhysicsPostStep` run
exactly when the play-state is Playing. -/
theorem c2_preStep_always_postStep_only_playing (isPlaying : Bool)
    (rbs tvs : List Nat) (b : Nat) (hb : b ∈ rbs ∨ b ∈ tvs) :
    PhysEvent.preStep b ∈ DoPhysics isPlaying rbs tvs ∧
    (isPlaying = true →
      PhysEvent.stepSimulation ∈ DoPhysics isPlaying rbs tvs ∧
      PhysEvent.postStep b ∈ DoPhysics isPlaying rbs tvs) ∧
    (isPlaying = false →
      PhysEvent.stepSimulation ∉ DoPhysics isPlaying rbs tvs ∧
      PhysEvent.postStep b ∉ DoPhysics isPlaying rbs tvs) := by
  rcases hb with h | h <;> cases isPlaying <;> simp [DoPhysics, h]

/-- C2 witness: the amended theorem instantiated on one rigid body, one
trigger volume and the paused/editing state. -/
theorem c2_witness :
    ((0 : Nat) ∈ [0] ∨ (0 : Nat) ∈ [1]) ∧
    (PhysEvent.preStep 0 ∈ DoPhysics false [0] [1] ∧
      (false = true →
        PhysEvent.stepSimulation ∈ DoPhysics false [0] [1] ∧
        PhysEvent.postStep 0 ∈ DoPhysics false [0] [1]) ∧
      (false = false →
        PhysEvent.stepSimulation ∉ DoPhysics false [0] [1] ∧
        PhysEvent.postStep 0 ∉ DoPhysics false [0] [1])) :=
  ⟨Or.inl (by decide),
    c2_preStep_always_postStep_only_playing false [0] [1] 0 (Or.inl (by decide))⟩

/-- C3: the serialize/deserialize pair of `TargetBehaviour` does not
round-trip: `ToJson` writes the key `health` while `FromJson` reads the key
`Health`, so loading the saved document cannot recover the health field. -/
theorem c3_targetBehaviour_roundtrip_fails :
    TargetBehaviour.FromJson
      (TargetBehaviour.ToJson { health := 50, MaxHealth := 100 }) = none := by
  decide

/-- C7: a document whose top-level `objects` or `lights` entry is absent or
not an array makes `Scene::FromJson` fail with a load error instead of
producing a scene, and the previously live scene is left untouched. -/
theorem c7_fromJson_missing_keys (data : Json) (prior : Scene)
    (h : ((data.getField "objects").getD .null).isArr = false ∨
      ((data.getField "lights").getD .null).isArr = false) :
    loadFails (Scene.FromJson data) = true ∧
    (Scene.LoadFrom prior data).2 = prior := by
  refine ⟨?_, rfl⟩
  by_cases ho : ((data.getField "objects").getD .null).isArr
  · rcases h with h | h
    · rw [ho] at h; exact absurd h (by simp)
    · simp [Scene.FromJson, ho, h, loadFails]
  · simp [Scene.FromJson, ho, loadFails]

/-- C4 counterexample: at the configured threshold of 8 recorded kills but
with an enemy still alive, `LevellCheck` performs no healing pass, does not
increment the round, does not reset the counter and requests no wave. -/
theorem c4_counterexample :
    sceneKills8Busy.EnemiesKilled = 8 ∧
    sceneKills8Busy.LevellCheck = (sceneKills8Busy, []) := by decide

/-- C4 amended: when the kill counter sits at a round threshold and the live
enemy list is empty, `LevellCheck` heals every surviving target exactly once,
increments the round by one, resets the kill counter to zero and requests
exactly one wave with the composition the code configures for that round. -/
theorem c4_threshold_progression (s : Scene) (hE : s.Enemies = [])
    (hk : s.EnemiesKilled = 8 ∨ s.EnemiesKilled = 12 ∨
      s.EnemiesKilled = 16 ∨ s.EnemiesKilled = 20) :
    (s.LevellCheck).2 =
      s.Targets.map Ev.heal ++
        [Ev.speedUp, Ev.spawnWave (waveComposition s.EnemiesKilled (s.GameRound + 1))] ∧
    (s.LevellCheck).1.GameRound = s.GameRound + 1 ∧
    (s.LevellCheck).1.EnemiesKilled = 0 := by
  rcases hk with h | h | h | h <;>
    simp [Scene.LevellCheck, waveComposition, hE, h] <;> split_ifs <;> simp

/-- C4 witness: the amended theorem instantiated at the first threshold on a
cleared wave with one surviving target. -/
theorem c4_witness :
    (sceneKills8Clear.Enemies = [] ∧ sceneKills8Clear.EnemiesKilled = 8) ∧
    ((sceneKills8Clear.LevellCheck).2 =
      sceneKills8Clear.Targets.map Ev.heal ++
        [Ev.speedUp,
          Ev.spawnWave (waveComposition sceneKills8Clear.EnemiesKilled
            (sceneKills8Clear.GameRound + 1))] ∧
      (sceneKills8Clear.LevellCheck).1.GameRound = sceneKills8Clear.GameRound + 1 ∧
      (sceneKills8Clear.LevellCheck).1.EnemiesKilled = 0) :=
  ⟨⟨by decide, by decide⟩,
    c4_threshold_progression sceneKills8Clear (by decide) (Or.inl (by decide))⟩

lemma update_gameEnd_fixed (s : Scene) (inp : Input) (spawned : List GameObject)
    (h : s.IsGameEnd = true) :
    (s.Update inp spawned).1 = s ∧ noObjUpdate (s.Update inp spawned).2 = true := by
  cases hW : s.IsGameWon <;> cases hT : s.IsTitleUp <;>
    simp [Scene.Update, h, hW, hT, noObjUpdate]

lemma updateRun_gameEnd (s : Scene) (h : s.IsGameEnd = true)
    (frames : List (Input × List GameObject)) :
    (s.UpdateRun frames).1.IsGameEnd = true ∧
    noObjUpdate (s.UpdateRun frames).2 = true := by
  induction frames generalizing s with
  | nil => exact ⟨h, rfl⟩
  | cons f rest ih =>
    obtain ⟨hfix, hno⟩ := update_gameEnd_fixed s f.1 f.2 h
    have := ih (s.Update f.1 f.2).1 (by rw [hfix]; exact h)
    simp only [Scene.UpdateRun]
    constructor
    · exact this.1
    · simp only [noObjUpdate, List.all_append] at *
      rw [Bool.and_eq_true]
      exact ⟨hno, this.2⟩

/-- C5 counterexample: with 27 kills (above the win threshold) but an empty
enemy list, `LevellCheck` falls into the first branch's default case and does
not transition to the won ending. -/
theorem c5_counterexample :
    26 < sceneKills27.EnemiesKilled ∧
    (sceneKills27.LevellCheck).1.IsGameEnd = false ∧
    (sceneKills27.LevellCheck).1.IsGameWon = false := by decide

/-- C5 amended: when the kill counter exceeds 26 while the enemy list is
non-empty, `LevellCheck` transitions to the won ending, and from that ended
state every later frame keeps the ended flag and emits no per-object
`Update` call. -/
theorem c5_win_transition_then_no_updates (s : Scene)
    (frames : List (Input × List GameObject))
    (h1 : 26 < s.EnemiesKilled) (h2 : s.Enemies ≠ []) :
    (s.LevellCheck).1.IsGameWon = true ∧
    (s.LevellCheck).1.IsGameEnd = true ∧
    ((s.LevellCheck).1.UpdateRun frames).1.IsGameEnd = true ∧
    noObjUpdate ((s.LevellCheck).1.UpdateRun frames).2 = true := by
  have hlen : ¬(s.Enemies = [] ∧ 0 < s.EnemiesKilled) := by
    rintro ⟨hz, _⟩
    exact h2 hz
  have hL : (s.LevellCheck).1 = { s with IsGameWon := true, IsGameEnd := true } := by
    simp [Scene.LevellCheck, hlen, h1]
  rw [hL]
  obtain ⟨hrun1, hrun2⟩ :=
    updateRun_gameEnd { s with IsGameWon := true, IsGameEnd := true } rfl frames
  exact ⟨rfl, rfl, hrun1, hrun2⟩

/-- C5 witness: the amended theorem instantiated on a concrete scene with 27
kills, one live enemy and two subsequent frames. -/
theorem c5_witness :
    (26 < sceneKills27Busy.EnemiesKilled ∧ sceneKills27Busy.Enemies ≠ []) ∧
    ((sceneKills27Busy.LevellCheck).1.IsGameWon = true ∧
      (sceneKills27Busy.LevellCheck).1.IsGameEnd = true ∧
      ((sceneKills27Busy.LevellCheck).1.UpdateRun
          [(⟨false, false, true⟩, []), (⟨true, true, false⟩, [])]).1.IsGameEnd = true ∧
      noObjUpdate ((sceneKills27Busy.LevellCheck).1.UpdateRun
          [(⟨false, false, true⟩, []), (⟨true, true, false⟩, [])]).2 = true) :=
  ⟨⟨by decide, by decide⟩,
    c5_win_transition_then_no_updates sceneKills27Busy
      [(⟨false, false, true⟩, []), (⟨true, true, false⟩, [])]
      (by decide) (by decide)⟩

/-- C8 counterexample: `GameStart` resizes the light list to the spawned
target count with no cap, so a start with nine targets leaves the light list
above the (here eight-slot) `MAX_LIGHTS` bound, refuting the invariant that
no operation lets the light list exceed the cap. -/
theorem c8_counterexample :
    ¬((sampleScene.GameStart nineTargets).1.Lights.length ≤
      (sampleScene.GameStart nineTargets).1.MAX_LIGHTS) := by decide

lemma setShaderLight_Lights (s : Scene) (i : Nat) :
    (s.SetShaderLight i).Lights = s.Lights ∧
    (s.SetShaderLight i).MAX_LIGHTS = s.MAX_LIGHTS := by
  simp only [Scene.SetShaderLight]
  split <;> exact ⟨rfl, rfl⟩

lemma foldl_setShaderLight_Lights (l : List Nat) (s : Scene) :
    ((l.foldl Scene.SetShaderLight s).Lights = s.Lights ∧
      (l.foldl Scene.SetShaderLight s).MAX_LIGHTS = s.MAX_LIGHTS) := by
  induction l generalizing s with
  | nil => exact ⟨rfl, rfl⟩
  | cons i l ih =>
    obtain ⟨h1, h2⟩ := setShaderLight_Lights s i
    obtain ⟨h3, h4⟩ := ih (s.SetShaderLight i)
    exact ⟨h3.trans h1, h4.trans h2⟩

/-- C8 amended: the mirrored lighting buffer is safe — `SetShaderLight` never
writes an entry at or past `MAX_LIGHTS` (such an index is a no-op) and never
grows the mirror buffer — and the debug-UI add-light path keeps the light
list within the cap; the cap can still be exceeded by `GameStart`'s uncapped
resize (see the counterexample). -/
theorem c8_mirror_safe_addLight_capped (s : Scene) (index : Nat)
    (hlen : s.Lights.length ≤ s.MAX_LIGHTS) :
    (s.MAX_LIGHTS ≤ index → s.SetShaderLight index = s) ∧
    (s.SetShaderLight index).uboLights.length = s.uboLights.length ∧
    (s.addLightUI).Lights.length ≤ s.MAX_LIGHTS ∧
    (s.addLightUI).MAX_LIGHTS = s.MAX_LIGHTS := by
  refine ⟨?_, ?_, ?_, ?_⟩
  · intro hge
    simp only [Scene.SetShaderLight]
    rw [if_neg]
    rintro ⟨-, hlt⟩
    omega
  · simp only [Scene.SetShaderLight]
    split <;> simp
  · simp only [Scene.addLightUI]
    split
    · rename_i hlt
      obtain ⟨h1, -⟩ := foldl_setShaderLight_Lights _ _
      simp only [Scene.SetupShaderAndLights]
      rw [h1]
      simp only [List.length_append, List.length_cons, List.length_nil]
      omega
    · exact hlen
  · simp only [Scene.addLightUI]
    split
    · obtain ⟨-, h2⟩ := foldl_setShaderLight_Lights _ _
      simpa [Scene.SetupShaderAndLights] using h2
    · rfl

/-- C8 witness: the amended theorem instantiated on a concrete scene with an
empty light list and an out-of-range mirror index. -/
theorem c8_witness :
    sampleScene.Lights.length ≤ sampleScene.MAX_LIGHTS ∧
    ((sampleScene.MAX_LIGHTS ≤ 9 → sampleScene.SetShaderLight 9 = sampleScene) ∧
      (sampleScene.SetShaderLight 9).uboLights.length = sampleScene.uboLights.length ∧
      (sampleScene.addLightUI).Lights.length ≤ sampleScene.MAX_LIGHTS ∧
      (sampleScene.addLightUI).MAX_LIGHTS = sampleScene.MAX_LIGHTS) :=
  ⟨by decide, c8_mirror_safe_addLight_capped sampleScene 9 (by decide)⟩

/-- C10 counterexample: with a single keypoint and a first update of half a
second, the timer never wraps, so the interpolation reads keypoint indices 0
and 1 while only index 0 is within bounds. -/
theorem c10_counterexample :
    (CPathAnimation.init.Update 1 (1 / 2)).2 = [0, 1] ∧ ¬(1 < 1) := by
  norm_num [CPathAnimation.Update, CPathAnimation.init]

lemma cpath_update_inv (a : CPathAnimation) (n : Nat) (dt : Rat)
    (h : n = 0 ∨ (a.segmentIndex < n ∧ a.segmentIndex2 < n)) :
    (n = 0 ∨ (((a.Update n dt).1).segmentIndex < n ∧
      ((a.Update n dt).1).segmentIndex2 < n)) ∧
    allBelow (a.Update n dt).2 n = true := by
  rcases h with h0 | ⟨h1, h2⟩
  · subst h0
    refine ⟨Or.inl rfl, ?_⟩
    simp [CPathAnimation.Update, allBelow]
  · have hn : 0 < n := Nat.lt_of_le_of_lt (Nat.zero_le _) h1
    refine ⟨Or.inr ?_, ?_⟩ <;>
      · unfold CPathAnimation.Update
        dsimp only
        split_ifs <;> simp_all [allBelow]

lemma cpath_run_inbounds (a : CPathAnimation) (n : Nat)
    (h : n = 0 ∨ (a.segmentIndex < n ∧ a.segmentIndex2 < n))
    (dts : List Rat) :
    allBelow ((a.UpdateRun n dts).2) n = true := by
  induction dts generalizing a with
  | nil => rfl
  | cons dt rest ih =>
    obtain ⟨hinv, hreads⟩ := cpath_update_inv a n dt h
    simp only [CPathAnimation.UpdateRun, allBelow, List.all_append]
    simp only [allBelow] at hreads
    rw [hreads]
    simpa [allBelow] using ih (a.Update n dt).1 hinv

/-- C10 amended: starting from the constructor state, every keypoint access
of any update sequence is in bounds whenever the keypoint set is empty (no
read happens) or has at least two keypoints; with exactly one keypoint the
claim fails before the first wrap (see the counterexample). -/
theorem c10_inbounds_for_sizes_not_one (n : Nat) (dts : List Rat)
    (h : n = 0 ∨ 2 ≤ n) :
    allBelow ((CPathAnimation.init.UpdateRun n dts).2) n = true := by
  apply cpath_run_inbounds
  rcases h with h0 | h2
  · exact Or.inl h0
  · exact Or.inr ⟨by simp [CPathAnimation.init]; omega, by simp [CPathAnimation.init]; omega⟩

/-- C10 witness: the amended theorem instantiated on two keypoints and a
concrete update sequence crossing a segment switch. -/
theorem c10_witness :
    ((2 : Nat) = 0 ∨ 2 ≤ 2) ∧
    allBelow ((CPathAnimation.init.UpdateRun 2 [1 / 2, 1 / 2, 1 / 3]).2) 2 = true :=
  ⟨Or.inr (by decide),
    c10_inbounds_for_sizes_not_one 2 [1 / 2, 1 / 2, 1 / 3] (Or.inr (by decide))⟩

/-- C7 witness: the theorem instantiated on a document missing `objects`. -/
theorem c7_witness :
    (((Json.obj [("lights", Json.arr [])]).getField "objects").getD .null |>.isArr) = false ∧
    loadFails (Scene.FromJson (Json.obj [("lights", Json.arr [])])) = true ∧
    (Scene.LoadFrom sampleScene (Json.obj [("lights", Json.arr [])])).2 = sampleScene :=
  ⟨by decide,
    c7_fromJson_missing_keys (Json.obj [("lights", Json.arr [])]) sampleScene
      (Or.inl (by decide))⟩

end CellOps

